import Mathlib

/-!
Shallow embedding of the applicant auto-reply pipeline
(`sheets.py`, `mailer.py`, `auto_reply.py` of メール自動送信/初動メール)
together with theorems settling the specification claims.

Spreadsheet cells are strings, sheets are lists of rows, Python dicts are
association lists in insertion order, and the effectful boundaries (SMTP
send, sheet write-back, per-account exceptions) are abstracted as explicit
outcome oracles / `Except` values.
-/

namespace AutoReply

/-! ### String utilities (Python `str.strip`, `str.lower`, `_normalize_name`) -/

/-- Whitespace characters removed by Python `str.strip()` / matched by the
regex class `\s` (restricted to the characters that can actually occur in
the sheets: ASCII whitespace plus the full-width space U+3000). -/
def isWsChar (c : Char) : Bool :=
  c = ' ' || c = '\t' || c = '\n' || c = '\r' || c = '\x0b' || c = '\x0c' ||
  c = '　'

/-- Python `str.strip()`. -/
def pyStrip (s : String) : String :=
  ⟨((s.data.dropWhile isWsChar).reverse.dropWhile isWsChar).reverse⟩

/-- Python `str.lower()` (ASCII; the inputs fed to it are host names and
email addresses). -/
def pyLower (s : String) : String :=
  ⟨s.data.map Char.toLower⟩

/-- Collapse consecutive spaces into one (second phase of
`re.sub(r"\s+", " ", name)` after each whitespace char is mapped to a
space). -/
def squeezeSpaces : List Char → List Char
  | [] => []
  | [c] => [c]
  | c :: d :: rest =>
    if c = ' ' && d = ' ' then squeezeSpaces (d :: rest)
    else c :: squeezeSpaces (d :: rest)

/-- `_normalize_name` from sheets.py: full-width space to space, whitespace
runs to a single space, then strip. -/
def _normalize_name (name : String) : String :=
  let step1 := name.data.map (fun c => if c = '　' then ' ' else c)
  let step2 := squeezeSpaces (step1.map (fun c => if isWsChar c then ' ' else c))
  pyStrip ⟨step2⟩

/-- Python `a or b` on (already stripped) strings: the empty string is
falsy. -/
def pyOr (a b : String) : String :=
  if a = "" then b else a

/-- Python `sub in s` substring test (haystack first). -/
def containsSub : List Char → List Char → Bool
  | [], pat => pat.isEmpty
  | c :: rest, pat => pat.isPrefixOf (c :: rest) || containsSub rest pat

/-- Python `s.split(sep)[-1]` for a one-character separator: the suffix
after the last occurrence (the whole string when absent). -/
def lastSplitAt (sep : Char) (s : String) : String :=
  ⟨(s.data.reverse.takeWhile (fun c => c ≠ sep)).reverse⟩

/-- Python `list.index` returning `none` instead of raising (the callers
store `-1` on `ValueError`; absence is modelled as `none`). -/
def listIndex (l : List String) (x : String) : Option Nat :=
  l.findIdx? (fun a => a = x)

/-! ### Python `str.replace` (used by `build_email_body`) -/

/-- One fuel-indexed pass of Python `str.replace`: leftmost non-overlapping
occurrences of `pat` replaced by `rep`.  All call sites in the source pass
a non-empty `pat`; with `fuel ≥ s.length` the fuel never runs out. -/
def replaceAllFuel (pat rep : List Char) : Nat → List Char → List Char
  | _, [] => []
  | 0, s => s
  | fuel + 1, c :: rest =>
    if pat ≠ [] && pat.isPrefixOf (c :: rest) then
      rep ++ replaceAllFuel pat rep fuel ((c :: rest).drop pat.length)
    else
      c :: replaceAllFuel pat rep fuel rest

/-- Python `s.replace(pat, rep)` for non-empty `pat`. -/
def pyReplace (s pat rep : String) : String :=
  ⟨replaceAllFuel pat.data rep.data s.data.length s.data⟩

/-! ### Dates (`_parse_date`, the JST cutoff computation) -/

/-- A parsed `datetime` (all values JST-aware in the source, so field-wise
civil time determines the order). -/
structure PyDateTime where
  year : Nat
  month : Nat
  day : Nat
  hour : Nat
  minute : Nat
  second : Nat
deriving DecidableEq, Repr

def digitVal (c : Char) : Option Nat :=
  if c.isDigit then some (c.toNat - 48) else none

/-- `%Y`: exactly four digits. -/
def parse4 : List Char → Option (Nat × List Char)
  | a :: b :: c :: d :: rest =>
    match digitVal a, digitVal b, digitVal c, digitVal d with
    | some w, some x, some y, some z => some (w * 1000 + x * 100 + y * 10 + z, rest)
    | _, _, _, _ => none
  | _ => none

/-- `%m`/`%d`/`%H`/`%M`/`%S`: one or two digits, greedily.  Since every
following token in the supported formats is a non-digit separator or the
end of the string, greedy matching agrees with the strptime regexes. -/
def parseDigits2 : List Char → Option (Nat × List Char)
  | [] => none
  | [a] => (digitVal a).map (fun x => (x, []))
  | a :: b :: rest =>
    match digitVal a, digitVal b with
    | some x, some y => some (10 * x + y, rest)
    | some x, none => some (x, b :: rest)
    | none, _ => none

def parseChar (c : Char) : List Char → Option (List Char)
  | x :: rest => if x = c then some rest else none
  | [] => none

/-- Whitespace in a strptime format matches one or more whitespace
characters. -/
def parseWs1 : List Char → Option (List Char)
  | x :: rest => if isWsChar x then some (rest.dropWhile isWsChar) else none
  | [] => none

def leapYear (y : Nat) : Bool :=
  (y % 4 = 0 && y % 100 ≠ 0) || y % 400 = 0

def daysInMonth (y m : Nat) : Nat :=
  if m = 2 then (if leapYear y then 29 else 28)
  else if m = 4 || m = 6 || m = 9 || m = 11 then 30
  else 31

/-- `%Y<sep>%m<sep>%d` with the range checks strptime and the `datetime`
constructor perform. -/
def parseYMD (sep : Char) (cs : List Char) : Option ((Nat × Nat × Nat) × List Char) := do
  let (y, cs) ← parse4 cs
  let cs ← parseChar sep cs
  let (m, cs) ← parseDigits2 cs
  if 1 ≤ m ∧ m ≤ 12 then
    let cs ← parseChar sep cs
    let (d, cs) ← parseDigits2 cs
    if 1 ≤ y ∧ 1 ≤ d ∧ d ≤ daysInMonth y m then
      pure ((y, m, d), cs)
    else none
  else none

/-- `%H:%M` optionally followed by `:%S`. -/
def parseHMS (withSec : Bool) (cs : List Char) :
    Option ((Nat × Nat × Nat) × List Char) := do
  let (h, cs) ← parseDigits2 cs
  if h ≤ 23 then
    let cs ← parseChar ':' cs
    let (mi, cs) ← parseDigits2 cs
    if mi ≤ 59 then
      if withSec then
        let cs ← parseChar ':' cs
        let (s, cs) ← parseDigits2 cs
        if s ≤ 59 then pure ((h, mi, s), cs) else none
      else
        pure ((h, mi, 0), cs)
    else none
  else none

/-- One strptime format: date part, optionally a time part, and the whole
string must be consumed. -/
def tryFormat (sep : Char) (time : Option Bool) (cs : List Char) :
    Option PyDateTime := do
  let ((y, m, d), cs) ← parseYMD sep cs
  match time with
  | none =>
    if cs = [] then pure ⟨y, m, d, 0, 0, 0⟩ else none
  | some withSec =>
    let cs ← parseWs1 cs
    let ((h, mi, s), cs) ← parseHMS withSec cs
    if cs = [] then pure ⟨y, m, d, h, mi, s⟩ else none

/-- `_parse_date` from sheets.py: the six formats, tried in order. -/
def _parse_date (s : String) : Option PyDateTime :=
  match tryFormat '/' (some true) s.data with
  | some dt => some dt
  | none =>
  match tryFormat '/' (some false) s.data with
  | some dt => some dt
  | none =>
  match tryFormat '-' (some true) s.data with
  | some dt => some dt
  | none =>
  match tryFormat '-' (some false) s.data with
  | some dt => some dt
  | none =>
  match tryFormat '/' none s.data with
  | some dt => some dt
  | none => tryFormat '-' none s.data

/-- Days since the civil epoch 0000-03-01 (Hinnant's algorithm restricted
to years ≥ 1, where every quantity stays non-negative).  Strictly
monotone in the civil date, hence `datetime` comparison is comparison of
`toSec`. -/
def daysFromCivil (y m d : Nat) : Nat :=
  let yAdj := if m ≤ 2 then y - 1 else y
  let era := yAdj / 400
  let yoe := yAdj % 400
  let mp := (m + 9) % 12
  let doy := (153 * mp + 2) / 5 + (d - 1)
  let doe := yoe * 365 + yoe / 4 + doy - yoe / 100
  era * 146097 + doe

/-- Seconds on the civil timeline; comparing two JST-aware `datetime`
values is comparing these numbers. -/
def toSec (dt : PyDateTime) : Int :=
  (daysFromCivil dt.year dt.month dt.day : Int) * 86400 +
    dt.hour * 3600 + dt.minute * 60 + dt.second

/-- `now.replace(hour=0, minute=0, second=0, microsecond=0)`. -/
def todayStart (now : PyDateTime) : PyDateTime :=
  { now with hour := 0, minute := 0, second := 0 }

/-- `SEARCH_DAYS` from config.py. -/
def SEARCH_DAYS : Nat := 1

/-- `cutoff = today_start - timedelta(days=SEARCH_DAYS)`, as a point on
the seconds timeline. -/
def cutoffSec (now : PyDateTime) : Int :=
  toSec (todayStart now) - (SEARCH_DAYS : Int) * 86400

/-! ### `_parse_age` -/

/-- Value of a digit run. -/
def digitsVal (l : List Char) : Nat :=
  l.foldl (fun acc c => acc * 10 + (c.toNat - 48)) 0

/-- Parse the significand `digits [. digits]` / `. digits` of a Python
float literal, returned as (all mantissa digits, number of fractional
digits, rest). -/
def parseMantissa (cs : List Char) : Option (List Char × Nat × List Char) :=
  let intPart := cs.takeWhile Char.isDigit
  let rest1 := cs.dropWhile Char.isDigit
  match rest1 with
  | '.' :: rest2 =>
    let fracPart := rest2.takeWhile Char.isDigit
    let rest3 := rest2.dropWhile Char.isDigit
    if intPart = [] && fracPart = [] then none
    else some (intPart ++ fracPart, fracPart.length, rest3)
  | _ =>
    if intPart = [] then none else some (intPart, 0, rest1)

/-- Optional sign; `true` means negative. -/
def parseSign : List Char → Bool × List Char
  | '-' :: rest => (true, rest)
  | '+' :: rest => (false, rest)
  | cs => (false, cs)

/-- `int(float(str(x).strip()))` from `_parse_age`: parse a finite decimal
float literal and truncate toward zero; anything unparsable yields
`none`. -/
def _parse_age (age_value : String) : Option Int :=
  let s := pyStrip age_value
  if s = "" then none
  else
    let (neg, cs) := parseSign s.data
    match parseMantissa cs with
    | none => none
    | some (mant, fracLen, rest) =>
      let expPart : Option Int :=
        match rest with
        | [] => some 0
        | 'e' :: rest2 =>
          let (eneg, cs2) := parseSign rest2
          let eDigits := cs2.takeWhile Char.isDigit
          if eDigits = [] ∨ cs2.dropWhile Char.isDigit ≠ [] then none
          else some (if eneg then -(digitsVal eDigits : Int) else (digitsVal eDigits : Int))
        | 'E' :: rest2 =>
          let (eneg, cs2) := parseSign rest2
          let eDigits := cs2.takeWhile Char.isDigit
          if eDigits = [] ∨ cs2.dropWhile Char.isDigit ≠ [] then none
          else some (if eneg then -(digitsVal eDigits : Int) else (digitsVal eDigits : Int))
        | _ => none
      match expPart with
      | none => none
      | some e =>
        let shift : Int := e - (fracLen : Int)
        let mag : Nat :=
          if 0 ≤ shift then digitsVal mant * 10 ^ shift.toNat
          else digitsVal mant / 10 ^ (-shift).toNat
        some (if neg then -(mag : Int) else (mag : Int))

/-! ### Applicants and the candidate row selector (`get_unsent_applicants`) -/

/-- One applicant dict as built by `get_unsent_applicants` (the `columns`
key is absent there, i.e. the empty map; `build_email_body` reads it with
an empty-map default). -/
structure Applicant where
  row_index : Nat
  name : String
  age : Option Int
  email_address : String
  client_name : String
  title : String
  application_date : String
  columns : List (String × String)
deriving DecidableEq, Repr

/-- The row accessor `_get` of `get_unsent_applicants`: `''` when the
column is missing from the header or the row is short, else the stripped
cell. -/
def getCol (headers row : List String) (colName : String) : String :=
  match listIndex headers colName with
  | none => ""
  | some i => if i < row.length then pyStrip (row.getD i "") else ""

/-- The applicant record appended for an eligible row. -/
def mkApplicant (headers : List String) (rowIdx : Nat) (row : List String) :
    Applicant :=
  { row_index := rowIdx
    name := getCol headers row "名前"
    age := _parse_age (getCol headers row "年齢")
    email_address := getCol headers row "メールアドレス"
    client_name := _normalize_name
      (pyOr (getCol headers row "クライアント名") (getCol headers row "クライアント"))
    title := getCol headers row "タイトル"
    application_date := getCol headers row "応募日時"
    columns := [] }

/-- The per-row body of the selection loop: the four guarded `continue`s
of `get_unsent_applicants`, in source order. -/
def rowDecision (headers : List String) (cutoff : Int) (rowIdx : Nat)
    (row : List String) : Option Applicant :=
  if getCol headers row "メール送信済" ≠ "" then none
  else
    let dateStr := getCol headers row "応募日時"
    if dateStr = "" then none
    else
      match _parse_date dateStr with
      | none => none
      | some dt =>
        if toSec dt < cutoff then none
        else
          if getCol headers row "メールアドレス" = "" then none
          else some (mkApplicant headers rowIdx row)

/-- The selection loop over the data rows, tracking the 1-based sheet row
number (first data row is row 2). -/
def selectRows (headers : List String) (cutoff : Int) :
    Nat → List (List String) → List Applicant
  | _, [] => []
  | rowIdx, row :: rest =>
    match rowDecision headers cutoff rowIdx row with
    | some a => a :: selectRows headers cutoff (rowIdx + 1) rest
    | none => selectRows headers cutoff (rowIdx + 1) rest

/-- `get_unsent_applicants` (sheets.py), with the sheet contents and the
current JST time passed in place of the fetch. -/
def get_unsent_applicants (allValues : List (List String)) (now : PyDateTime) :
    List Applicant :=
  if allValues.length < 2 then []
  else
    let headers := allValues.headD []
    if listIndex headers "メールアドレス" = none then []
    else selectRows headers (cutoffSec now) 2 (allValues.drop 1)

/-- Row eligibility as the code enforces it: sent marker empty, timestamp
parses and is not before the cutoff (no upper bound), email non-empty. -/
def eligibleRow (headers : List String) (cutoff : Int) (row : List String) :
    Bool :=
  getCol headers row "メール送信済" = "" &&
  (match _parse_date (getCol headers row "応募日時") with
   | none => false
   | some dt => decide (cutoff ≤ toSec dt)) &&
  getCol headers row "メールアドレス" ≠ ""

/-- Modelled from the spec: eligibility as claim C1 words it, with the
recency window *ending at the current run time* — the parsed timestamp
must lie between the cutoff and `now`. -/
def eligibleSpec (headers : List String) (now : PyDateTime)
    (row : List String) : Bool :=
  getCol headers row "メール送信済" = "" &&
  (match _parse_date (getCol headers row "応募日時") with
   | none => false
   | some dt => decide (cutoffSec now ≤ toSec dt) && decide (toSec dt ≤ toSec now)) &&
  getCol headers row "メールアドレス" ≠ ""

/-! ### The template registry (`get_mail_templates`) -/

/-- Python dict insertion: overwrite in place when the key exists, else
append. -/
def dictInsert {α : Type} (l : List (String × α)) (k : String) (v : α) :
    List (String × α) :=
  if l.any (fun p => p.1 = k) then
    l.map (fun p => if p.1 = k then (k, v) else p)
  else l ++ [(k, v)]

/-- Header auto-detection: first of the leading five rows containing the
literal クライアント名 label. -/
def findHeaderIdx (allValues : List (List String)) : Option Nat :=
  (allValues.take 5).findIdx? (fun row => row.contains "クライアント名")

/-- The `_get_cell` accessor of `get_mail_templates`. -/
def getCell (colIdx : Option Nat) (row : List String) : String :=
  match colIdx with
  | none => ""
  | some i => if i < row.length then pyStrip (row.getD i "") else ""

/-- `get_mail_templates` (sheets.py): registry keyed by normalized client
name, each entry the dict with `subject` / `under_35` / `over_35` keys. -/
def get_mail_templates (allValues : List (List String)) :
    List (String × List (String × String)) :=
  if allValues.length < 2 then []
  else
    match findHeaderIdx allValues with
    | none => []
    | some h =>
      let headers := allValues.getD h []
      if allValues.length ≤ h + 1 then []
      else
        let idxClient := listIndex headers "クライアント名"
        let idxSubject := listIndex headers "件名"
        let idxUnder := listIndex headers "34歳以下"
        let idxOver := listIndex headers "35歳以上"
        (allValues.drop (h + 1)).foldl
          (fun acc row =>
            let clientName := _normalize_name
              (match idxClient with
               | none => ""
               | some i => if i < row.length then row.getD i "" else "")
            if clientName = "" then acc
            else
              dictInsert acc clientName
                [("subject", getCell idxSubject row),
                 ("under_35", getCell idxUnder row),
                 ("over_35", getCell idxOver row)])
          []

/-! ### Template selection (`select_template`) -/

/-- Python `x or None` where `x` is an optional string: the empty string
and a missing key both collapse to `None`. -/
def pyOrNone : Option String → Option String
  | none => none
  | some s => if s = "" then none else some s

/-- `select_template` (sheets.py). -/
def select_template (age : Option Int) (templates : List (String × String)) :
    Option String :=
  match age with
  | none => pyOrNone (List.lookup "under_35" templates)
  | some a =>
    if a ≤ 34 then pyOrNone (List.lookup "under_35" templates)
    else pyOrNone (List.lookup "over_35" templates)

/-! ### Body rendering (`build_email_body`) -/

/-- `build_email_body` (mailer.py): `None` for an empty template,
otherwise escaped-newline conversion followed by `\x7b列名\x7d`
replacement for every entry of the applicant's column map. -/
def build_email_body (template : String) (applicant : Applicant) :
    Option String :=
  if template = "" then none
  else
    let body := pyReplace template "\\n" "\n"
    some (applicant.columns.foldl
      (fun b kv => pyReplace b ("\x7b" ++ kv.1 ++ "\x7d") kv.2) body)

/-! ### Subject rendering (`_build_subject`, `string.Template.safe_substitute`) -/

/-- First character of a Template identifier (default idpattern with
IGNORECASE). -/
def isIdentStart (c : Char) : Bool :=
  c = '_' || c.isAlpha

/-- Subsequent characters of a Template identifier. -/
def isIdentChar (c : Char) : Bool :=
  c = '_' || c.isAlpha || c.isDigit

/-- Longest identifier prefix; `([], input)` when the first character
cannot start one. -/
def takeIdent : List Char → List Char × List Char
  | [] => ([], [])
  | c :: rest =>
    if isIdentStart c then
      (c :: rest.takeWhile isIdentChar, rest.dropWhile isIdentChar)
    else ([], c :: rest)

/-- `string.Template.safe_substitute`: `$$` unescapes, `$ident` and
`$\x7bident\x7d` substitute when the key is mapped and stay verbatim
otherwise, a lone `$` stays verbatim.  Fuel-indexed; each step consumes at
least one character, so `fuel ≥ input.length` suffices. -/
def safeSub (mapping : List (String × String)) : Nat → List Char → List Char
  | _, [] => []
  | 0, s => s
  | fuel + 1, c :: rest =>
    if c ≠ '$' then c :: safeSub mapping fuel rest
    else
      match rest with
      | '$' :: rest2 => '$' :: safeSub mapping fuel rest2
      | '\x7b' :: rest2 =>
        let (ident, rest3) := takeIdent rest2
        if ident ≠ [] then
          match rest3 with
          | '\x7d' :: rest4 =>
            match List.lookup (⟨ident⟩ : String) mapping with
            | some v => v.data ++ safeSub mapping fuel rest4
            | none => '$' :: '\x7b' :: (ident ++ '\x7d' :: safeSub mapping fuel rest4)
          | _ => '$' :: safeSub mapping fuel ('\x7b' :: rest2)
        else '$' :: safeSub mapping fuel ('\x7b' :: rest2)
      | cs =>
        let (ident, rest2) := takeIdent cs
        if ident ≠ [] then
          match List.lookup (⟨ident⟩ : String) mapping with
          | some v => v.data ++ safeSub mapping fuel rest2
          | none => '$' :: (ident ++ safeSub mapping fuel rest2)
        else '$' :: safeSub mapping fuel cs

/-- The keyword mapping `_build_subject` passes to `safe_substitute`. -/
def subjectMapping (applicant : Applicant) : List (String × String) :=
  [("name", applicant.name),
   ("title", applicant.title),
   ("age", match applicant.age with | some a => toString a | none => ""),
   ("client_name", applicant.client_name)]

/-- `_build_subject` (auto_reply.py): render the sheet's subject template
when non-empty, else synthesize the default subject from the title. -/
def _build_subject (applicant : Applicant) (subject_template : String) :
    String :=
  if subject_template ≠ "" then
    ⟨safeSub (subjectMapping applicant)
      (subject_template.data.length + 1) subject_template.data⟩
  else if applicant.title ≠ "" then
    "ご応募ありがとうございます【" ++ applicant.title ++ "】"
  else
    "ご応募ありがとうございます"

/-! ### SMTP server resolution (`_resolve_smtp`, config.py maps) -/

/-- `IMAP_TO_SMTP_MAP` from config.py, in insertion order. -/
def IMAP_TO_SMTP_MAP : List (String × String × Nat) :=
  [("imap4.muumuu-mail.com", ("smtp.muumuu-mail.com", 587)),
   ("imap.muumuu-mail.com", ("smtp.muumuu-mail.com", 587)),
   ("imap.gmail.com", ("smtp.gmail.com", 587)),
   ("imap.googlemail.com", ("smtp.gmail.com", 587)),
   ("imap.onamae.com", ("smtp.onamae.com", 587)),
   ("imap.lolipop.jp", ("smtp.lolipop.jp", 587))]

/-- `DOMAIN_TO_SMTP_MAP` from config.py. -/
def DOMAIN_TO_SMTP_MAP : List (String × String × Nat) :=
  [("gmail.com", ("smtp.gmail.com", 587)),
   ("googlemail.com", ("smtp.gmail.com", 587)),
   ("muumuu-mail.com", ("smtp.muumuu-mail.com", 587)),
   ("onamae.com", ("smtp.onamae.com", 587)),
   ("lolipop.jp", ("smtp.lolipop.jp", 587))]

def SMTP_DEFAULT_SERVER : String := "smtp.muumuu-mail.com"

def SMTP_DEFAULT_PORT : Nat := 587

/-- `_resolve_smtp` (sheets.py): exact IMAP-hint match, substring match,
brand keywords, the per-domain provider, the email-domain map, then the
static default. -/
def _resolve_smtp (imap_server email : String) : String × Nat :=
  let imap_lower := pyStrip (pyLower imap_server)
  match List.lookup imap_lower IMAP_TO_SMTP_MAP with
  | some v => v
  | none =>
  match IMAP_TO_SMTP_MAP.find? (fun kv => containsSub imap_lower.data kv.1.data) with
  | some kv => kv.2
  | none =>
  if containsSub imap_lower.data "gmail".data ||
     containsSub imap_lower.data "google".data then ("smtp.gmail.com", 587)
  else if containsSub imap_lower.data "muumuu".data then ("smtp.muumuu-mail.com", 587)
  else if containsSub imap_lower.data "onamae".data then ("smtp.onamae.com", 587)
  else if containsSub imap_lower.data "lolipop".data then ("smtp.lolipop.jp", 587)
  else
    let xserverHit :=
      containsSub imap_lower.data "xserver".data ||
      containsSub imap_lower.data "xsrv".data
    let xserverResult : Option (String × Nat) :=
      if xserverHit then
        let domain := if email.data.contains '@' then lastSplitAt '@' email else ""
        if domain ≠ "" then some (domain, 587) else none
      else none
    match xserverResult with
    | some v => v
    | none =>
      if email.data.contains '@' then
        let domain := pyLower (lastSplitAt '@' email)
        match List.lookup domain DOMAIN_TO_SMTP_MAP with
        | some v => v
        | none => (SMTP_DEFAULT_SERVER, SMTP_DEFAULT_PORT)
      else (SMTP_DEFAULT_SERVER, SMTP_DEFAULT_PORT)

/-! ### The delivery pipeline (`process_account`, `main` accumulation) -/

/-- The five per-account outcome counters of `process_account`. -/
structure RunResult where
  sent : Nat
  skipped_no_template : Nat
  skipped_empty_body : Nat
  failed : Nat
  update_failed : Nat
deriving DecidableEq, Repr

def zeroResult : RunResult := ⟨0, 0, 0, 0, 0⟩

/-- Operator-visible effects of one applicant iteration: a successful
sent-marker write-back, or the duplicate-send warning printed when the
write-back failed after a successful send. -/
inductive MailEvent where
  | marked (row : Nat)
  | warnedDuplicate (row : Nat)
deriving DecidableEq, Repr

/-- One iteration of the applicant loop in `process_account`.  The SMTP
send and the (retried) sent-marker write-back are the two effectful calls,
abstracted as per-applicant outcome oracles `sendOk` / `markOk`. -/
def stepApplicant (templates : List (String × List (String × String)))
    (dry_run : Bool) (sendOk markOk : Applicant → Bool)
    (st : RunResult × List MailEvent) (a : Applicant) :
    RunResult × List MailEvent :=
  let (res, evs) := st
  match List.lookup a.client_name templates with
  | none => ({ res with skipped_no_template := res.skipped_no_template + 1 }, evs)
  | some clientTemplates =>
    match select_template a.age clientTemplates with
    | none => ({ res with skipped_empty_body := res.skipped_empty_body + 1 }, evs)
    | some templateText =>
      match build_email_body templateText a with
      | none => ({ res with skipped_empty_body := res.skipped_empty_body + 1 }, evs)
      | some body =>
        if body = "" then
          ({ res with skipped_empty_body := res.skipped_empty_body + 1 }, evs)
        else
          let _subject := _build_subject a
            ((List.lookup "subject" clientTemplates).getD "")
          if dry_run then ({ res with sent := res.sent + 1 }, evs)
          else if sendOk a then
            if markOk a then
              ({ res with sent := res.sent + 1 }, evs ++ [.marked a.row_index])
            else
              ({ res with update_failed := res.update_failed + 1 },
               evs ++ [.warnedDuplicate a.row_index])
          else ({ res with failed := res.failed + 1 }, evs)

/-- `process_account` (auto_reply.py) after a successful applicant-sheet
read: early exits for no candidates and for an empty registry, then the
per-applicant loop. -/
def process_account (applicants : List Applicant)
    (templates : List (String × List (String × String)))
    (dry_run : Bool) (sendOk markOk : Applicant → Bool) :
    RunResult × List MailEvent :=
  if applicants = [] then (zeroResult, [])
  else if templates = [] then
    ({ zeroResult with skipped_no_template := applicants.length }, [])
  else applicants.foldl (stepApplicant templates dry_run sendOk markOk)
    (zeroResult, [])

/-- Sum of the five counters. -/
def totalCount (r : RunResult) : Nat :=
  r.sent + r.skipped_no_template + r.skipped_empty_body + r.failed +
    r.update_failed

/-- The `total_* += result[...]` accumulation in `main`. -/
def accumulate (t r : RunResult) : RunResult :=
  ⟨t.sent + r.sent,
   t.skipped_no_template + r.skipped_no_template,
   t.skipped_empty_body + r.skipped_empty_body,
   t.failed + r.failed,
   t.update_failed + r.update_failed⟩

/-- The account loop of `main`: each account either yields its counters or
raises, and a raise is caught at the loop boundary (logged) so the totals
simply omit that account. -/
def runAccounts (outcomes : List (Except String RunResult)) : RunResult :=
  outcomes.foldl
    (fun t o =>
      match o with
      | .error _ => t
      | .ok r => accumulate t r)
    zeroResult

/-! ### Concrete fixtures used by witnesses and counterexamples -/

/-- The applicant-sheet header row (all eight looked-up columns). -/
def cexHeaders : List String :=
  ["メール送信済", "応募日時", "名前", "年齢", "メールアドレス",
   "クライアント名", "クライアント", "タイトル"]

/-- A row whose application timestamp lies in the future relative to
`cexNow`. -/
def cexFutureRow : List String :=
  ["", "2026/10/13 10:00:00", "Alice", "30", "a@example.com", "Acme", "", "T1"]

/-- The run time used by the concrete sheets. -/
def cexNow : PyDateTime := ⟨2026, 10, 12, 12, 0, 0⟩

def cexSheet : List (List String) := [cexHeaders, cexFutureRow]

/-- An applicant context whose column map sends the column `a` to the
empty string. -/
def applicantA : Applicant := ⟨2, "X", none, "", "", "", "", [("a", "")]⟩

/-- An applicant context with name `X` (also exposed in the column map). -/
def applicantB : Applicant := ⟨2, "X", some 30, "e@x", "C", "T", "", [("name", "X")]⟩

/-! ### Claim theorems -/

/-- Claim C4, as stated, is false: the template `\x7ba\x7d` is non-empty,
yet rendering it against a context mapping column `a` to the empty string
yields the empty body. -/
theorem build_email_body_nonempty_cex :
    build_email_body "\x7ba\x7d" applicantA = some "" ∧
      ("\x7ba\x7d" : String) ≠ "" := by
  constructor
  · rfl
  · decide

/-- Claim C4 (amended): `build_email_body` returns the absent result
(`None`) exactly when the input template is the empty string; for a
non-empty template the result is present but may itself be empty. -/
theorem build_email_body_none_iff (template : String) (applicant : Applicant) :
    build_email_body template applicant = none ↔ template = "" := by
  by_cases h : template = "" <;> simp [build_email_body, h]

/-- Claim C5, as stated, is false: body rendering (`build_email_body`)
does not substitute sigil placeholders — on the template
`$unknown $name` with a context whose name is `X` it returns the template
unchanged, not `$unknown X`. -/
theorem build_email_body_sigil_cex :
    build_email_body "$unknown $name" applicantB = some "$unknown $name" ∧
      ("$unknown $name" : String) ≠ "$unknown X" := by
  constructor
  · rfl
  · decide

/-- Claim C5 (amended): subject rendering (`_build_subject`, via
`Template.safe_substitute`) substitutes recognized sigil placeholders and
leaves unrecognized ones unchanged: with applicant name `X`, the subject
template `$unknown $name` renders to `$unknown X`. -/
theorem build_subject_safe_substitute :
    _build_subject applicantB "$unknown $name" = "$unknown X" := by
  rfl

/-- Claim C3: `select_template` picks the 34-and-under body for an unknown
age and for every age ≤ 34, the 35-and-over body for every age ≥ 35, and
an empty or absent entry of the chosen bracket yields `none` — never the
other bracket's body. -/
theorem select_template_brackets (td : List (String × String)) (a : Int) :
    select_template none td = pyOrNone (List.lookup "under_35" td)
    ∧ (a ≤ 34 → select_template (some a) td = pyOrNone (List.lookup "under_35" td))
    ∧ (35 ≤ a → select_template (some a) td = pyOrNone (List.lookup "over_35" td))
    ∧ (List.lookup "under_35" td = none ∨ List.lookup "under_35" td = some "" →
        select_template none td = none ∧
          (a ≤ 34 → select_template (some a) td = none))
    ∧ (35 ≤ a →
        List.lookup "over_35" td = none ∨ List.lookup "over_35" td = some "" →
        select_template (some a) td = none) := by
  refine ⟨rfl, fun h => ?_, fun h => ?_, fun h => ⟨?_, fun h34 => ?_⟩, fun h h2 => ?_⟩
  · simp [select_template, h]
  · simp [select_template, show ¬ a ≤ 34 by omega]
  · rcases h with h | h <;> simp [select_template, h, pyOrNone]
  · rcases h with h | h <;> simp [select_template, h34, h, pyOrNone]
  · rcases h2 with h2 | h2 <;>
      simp [select_template, show ¬ a ≤ 34 by omega, h2, pyOrNone]

/-- Witness for C3: with a registry entry that has only the 34-and-under
body, age 30 selects that body and age 40 selects nothing. -/
theorem select_template_brackets_witness :
    select_template (some 30) [("under_35", "U")] = some "U"
    ∧ select_template (some 40) [("under_35", "U")] = none := by
  constructor
  · have h := (select_template_brackets [("under_35", "U")] 30).2.1 (by decide)
    rw [h]; rfl
  · exact (select_template_brackets [("under_35", "U")] 40).2.2.2.2 (by decide)
      (Or.inl (by rfl))

/-- Claim C7: `_resolve_smtp` always returns a host/port pair, the IMAP
hint `imap.gmail.com` resolves to Gmail's SMTP, an empty hint with a
lolipop address resolves through the domain map, and an unknown hint with
an unknown domain falls back to the static default pair. -/
theorem resolve_smtp_cases :
    (∀ imap email : String, ∃ host port, _resolve_smtp imap email = (host, port))
    ∧ _resolve_smtp "imap.gmail.com" "info@example.com" = ("smtp.gmail.com", 587)
    ∧ _resolve_smtp "" "a@lolipop.jp" = ("smtp.lolipop.jp", 587)
    ∧ _resolve_smtp "imap.example.com" "user@example.com" =
        ("smtp.muumuu-mail.com", 587) := by
  refine ⟨fun imap email => ⟨(_resolve_smtp imap email).1,
    (_resolve_smtp imap email).2, rfl⟩, ?_, ?_, ?_⟩
  · rfl
  · rfl
  · rfl

/-- Claim C8: an account whose processing raises contributes nothing to
the run-wide totals and does not abort the remaining accounts — deleting
the failing account from the outcome list leaves the totals of `main`'s
account loop unchanged (and the loop is total, so the summary is always
produced). -/
theorem runAccounts_error_isolated (pre post : List (Except String RunResult))
    (e : String) :
    runAccounts (pre ++ Except.error e :: post) = runAccounts (pre ++ post) := by
  unfold runAccounts
  rw [List.foldl_append, List.foldl_append, List.foldl_cons]

/-- Each applicant iteration increments exactly one of the five
counters. -/
lemma stepApplicant_totalCount (templates : List (String × List (String × String)))
    (dry_run : Bool) (sendOk markOk : Applicant → Bool)
    (st : RunResult × List MailEvent) (a : Applicant) :
    totalCount (stepApplicant templates dry_run sendOk markOk st a).1 =
      totalCount st.1 + 1 := by
  obtain ⟨res, evs⟩ := st
  simp only [stepApplicant]
  repeat' split
  all_goals simp only [totalCount]
  all_goals omega

/-- The applicant loop adds the list length to the counter total. -/
lemma foldl_stepApplicant_totalCount
    (templates : List (String × List (String × String)))
    (dry_run : Bool) (sendOk markOk : Applicant → Bool) :
    ∀ (l : List Applicant) (st : RunResult × List MailEvent),
      totalCount ((l.foldl (stepApplicant templates dry_run sendOk markOk) st)).1 =
        totalCount st.1 + l.length := by
  intro l
  induction l with
  | nil => intro st; simp
  | cons a rest ih =>
    intro st
    rw [List.foldl_cons, ih, stepApplicant_totalCount]
    simp only [List.length_cons]
    omega

/-- Claim C9: whenever the applicant-sheet read succeeds, the five outcome
counters of `process_account` partition the candidate applicants — their
sum equals the number of candidates, in the empty-registry and
no-candidate cases included. -/
theorem process_account_counter_partition (applicants : List Applicant)
    (templates : List (String × List (String × String)))
    (dry_run : Bool) (sendOk markOk : Applicant → Bool) :
    totalCount (process_account applicants templates dry_run sendOk markOk).1 =
      applicants.length := by
  unfold process_account
  by_cases h1 : applicants = []
  · simp [h1, totalCount, zeroResult]
  · rw [if_neg h1]
    by_cases h2 : templates = []
    · simp [h2, totalCount, zeroResult]
    · rw [if_neg h2, foldl_stepApplicant_totalCount]
      simp [totalCount, zeroResult]

/-- Claim C2: for a run with one deliverable applicant, when the send
succeeds but the sent-marker write-back fails the applicant is counted
only in `update_failed` (counters show `update_failed = 1`, `sent = 0`)
and the duplicate-send warning is emitted; when the send fails the
applicant is counted in `failed` and the row is never marked. -/
theorem process_account_mark_failure (a : Applicant)
    (templates : List (String × List (String × String)))
    (clientTemplates : List (String × String)) (templateText body : String)
    (h1 : List.lookup a.client_name templates = some clientTemplates)
    (h2 : select_template a.age clientTemplates = some templateText)
    (h3 : build_email_body templateText a = some body)
    (h4 : body ≠ "") :
    (process_account [a] templates false (fun _ => true) (fun _ => false)).1 =
        { zeroResult with update_failed := 1 }
    ∧ MailEvent.warnedDuplicate a.row_index ∈
        (process_account [a] templates false (fun _ => true) (fun _ => false)).2
    ∧ ∀ markOk : Applicant → Bool,
        (process_account [a] templates false (fun _ => false) markOk).1 =
            { zeroResult with failed := 1 }
        ∧ MailEvent.marked a.row_index ∉
            (process_account [a] templates false (fun _ => false) markOk).2 := by
  have hT : templates ≠ [] := by
    intro h
    rw [h] at h1
    cases h1
  have hstep : ∀ sendOk markOk : Applicant → Bool,
      process_account [a] templates false sendOk markOk =
        stepApplicant templates false sendOk markOk (zeroResult, []) a := by
    intro sendOk markOk
    unfold process_account
    rw [if_neg (by simp), if_neg hT, List.foldl_cons, List.foldl_nil]
  refine ⟨?_, ?_, fun markOk => ⟨?_, ?_⟩⟩
  · rw [hstep]
    simp [stepApplicant, h1, h2, h3, h4, zeroResult]
  · rw [hstep]
    simp [stepApplicant, h1, h2, h3, h4]
  · rw [hstep]
    simp [stepApplicant, h1, h2, h3, h4, zeroResult]
  · rw [hstep]
    simp [stepApplicant, h1, h2, h3, h4]

/-- Witness for C2: a concrete one-applicant run against a registry that
has a matching client with a non-empty 34-and-under body. -/
theorem process_account_mark_failure_witness :
    (process_account [⟨2, "Alice", some 30, "a@e", "Acme", "T", "", []⟩]
        [("Acme", [("subject", ""), ("under_35", "Hello"), ("over_35", "Hi")])]
        false (fun _ => true) (fun _ => false)).1 =
      { zeroResult with update_failed := 1 }
    ∧ MailEvent.warnedDuplicate 2 ∈
        (process_account [⟨2, "Alice", some 30, "a@e", "Acme", "T", "", []⟩]
          [("Acme", [("subject", ""), ("under_35", "Hello"), ("over_35", "Hi")])]
          false (fun _ => true) (fun _ => false)).2 := by
  have h := process_account_mark_failure
    ⟨2, "Alice", some 30, "a@e", "Acme", "T", "", []⟩
    [("Acme", [("subject", ""), ("under_35", "Hello"), ("over_35", "Hi")])]
    [("subject", ""), ("under_35", "Hello"), ("over_35", "Hi")]
    "Hello" "Hello" (by rfl) (by rfl) (by rfl) (by decide)
  exact ⟨h.1, h.2.1⟩

/-- Claim C6: `get_mail_templates` scans at most the first five rows for
the クライアント名 label — if none of them contains it the registry is
empty (wherever the label appears later), if the header is found but no
data rows follow the registry is empty, and a found header always lies
within the five-row window and contains the label. -/
theorem get_mail_templates_header_scan (allValues : List (List String)) :
    ((∀ row ∈ allValues.take 5, "クライアント名" ∉ row) →
        get_mail_templates allValues = [])
    ∧ (∀ i, findHeaderIdx allValues = some i → allValues.length ≤ i + 1 →
        get_mail_templates allValues = [])
    ∧ (∀ i, findHeaderIdx allValues = some i →
        i < 5 ∧ "クライアント名" ∈ allValues.getD i []) := by
  refine ⟨fun hnone => ?_, fun i hi hlen => ?_, fun i hi => ?_⟩
  · have hf : findHeaderIdx allValues = none := by
      rw [findHeaderIdx, List.findIdx?_eq_none_iff]
      intro row hrow
      simpa using hnone row hrow
    unfold get_mail_templates
    rw [hf]
    split
    · rfl
    · rfl
  · unfold get_mail_templates
    rw [hi]
    by_cases hl : allValues.length < 2
    · rw [if_pos hl]
    · rw [if_neg hl]
      simp only [if_pos hlen]
  · rw [findHeaderIdx] at hi
    obtain ⟨hlt, hp, -⟩ := List.findIdx?_eq_some_iff_getElem.mp hi
    have h5 : i < 5 := by
      rw [List.length_take] at hlt
      omega
    have hilen : i < allValues.length := by
      rw [List.length_take] at hlt
      omega
    refine ⟨h5, ?_⟩
    rw [List.getElem_take] at hp
    have hg : allValues.getD i [] = allValues[i] := by
      simp [List.getD_eq_getElem?_getD, List.getElem?_eq_getElem hilen]
    rw [hg]
    simpa using hp

/-- A sheet whose label row is the sixth: outside the scan window. -/
def valsNoHeader : List (List String) :=
  [["x"], ["y"], ["z"], ["w"], ["v"], ["クライアント名"]]

/-- A sheet whose header is row 2 (not row 1) with no data rows after. -/
def valsHeaderLast : List (List String) :=
  [["preamble"], ["クライアント名", "件名", "34歳以下", "35歳以上"]]

/-- Witness for C6: the three parts applied to concrete sheets — label in
row six (not found), header found at index 1 with no data after it. -/
theorem get_mail_templates_header_scan_witness :
    get_mail_templates valsNoHeader = []
    ∧ get_mail_templates valsHeaderLast = []
    ∧ (1 < 5 ∧ "クライアント名" ∈ valsHeaderLast.getD 1 []) := by
  refine ⟨?_, ?_, ?_⟩
  · exact (get_mail_templates_header_scan valsNoHeader).1 (by decide)
  · exact (get_mail_templates_header_scan valsHeaderLast).2.1 1 (by rfl) (by decide)
  · exact (get_mail_templates_header_scan valsHeaderLast).2.2 1 (by rfl)

/-- Claim C10: the client-name fallback is per cell value — whenever the
クライアント名 cell reads as empty (column missing or cell blank), the
applicant's client name is the normalized value of the クライアント
column. -/
theorem applicant_client_fallback (headers row : List String) (rowIdx : Nat)
    (h : getCol headers row "クライアント名" = "") :
    (mkApplicant headers rowIdx row).client_name =
      _normalize_name (getCol headers row "クライアント") := by
  simp [mkApplicant, pyOr, h]

/-- A data row whose クライアント名 cell is blank (whitespace) although
the column exists in the header; the クライアント cell carries the name
(with a full-width space). -/
def cexFallbackRow : List String :=
  ["", "2026/10/12 09:00:00", "Eve", "28", "e@example.com", "   ",
   "Fallback　Co", "T5"]

/-- Witness for C10: with the クライアント名 column present but the cell
blank, the client name comes from the クライアント column, normalized. -/
theorem applicant_client_fallback_witness :
    getCol cexHeaders cexFallbackRow "クライアント名" = ""
    ∧ (mkApplicant cexHeaders 2 cexFallbackRow).client_name =
        _normalize_name (getCol cexHeaders cexFallbackRow "クライアント")
    ∧ _normalize_name (getCol cexHeaders cexFallbackRow "クライアント") =
        "Fallback Co" := by
  refine ⟨by rfl, ?_, by rfl⟩
  exact applicant_client_fallback cexHeaders cexFallbackRow 2 (by rfl)

lemma parse_date_empty : _parse_date "" = none := rfl

/-- The four sequential guards of the selection loop, rephrased as one
eligibility test. -/
lemma rowDecision_eq (headers : List String) (cutoff : Int) (rowIdx : Nat)
    (row : List String) :
    rowDecision headers cutoff rowIdx row =
      if eligibleRow headers cutoff row then some (mkApplicant headers rowIdx row)
      else none := by
  unfold rowDecision eligibleRow
  by_cases h1 : getCol headers row "メール送信済" = ""
  · by_cases h2 : getCol headers row "応募日時" = ""
    · simp only [h1, h2]
      rw [parse_date_empty]
      simp
    · cases hd : _parse_date (getCol headers row "応募日時") with
      | none => simp [h1, h2, hd]
      | some dt =>
        by_cases hc : toSec dt < cutoff
        · simp [h1, h2, hd, hc, show ¬ cutoff ≤ toSec dt by omega]
        · by_cases he : getCol headers row "メールアドレス" = ""
          · simp [h1, h2, hd, hc, he, show cutoff ≤ toSec dt by omega]
          · simp [h1, h2, hd, hc, he, show cutoff ≤ toSec dt by omega]
  · simp [h1]

/-- Membership in the selection loop's output, characterized by the
per-row decision at the corresponding data-row index. -/
lemma mem_selectRows (headers : List String) (cutoff : Int) :
    ∀ (rows : List (List String)) (k : Nat) (a : Applicant),
      a ∈ selectRows headers cutoff k rows ↔
        ∃ i row, rows[i]? = some row ∧
          rowDecision headers cutoff (k + i) row = some a := by
  intro rows
  induction rows with
  | nil =>
    intro k a
    simp [selectRows]
  | cons r rest ih =>
    intro k a
    have hshift : ∀ i : Nat, k + (i + 1) = (k + 1) + i := by omega
    cases hd : rowDecision headers cutoff k r with
    | some b =>
      simp only [selectRows, hd, List.mem_cons]
      constructor
      · rintro (rfl | hmem)
        · exact ⟨0, r, by simp, by simpa using hd⟩
        · obtain ⟨i, row, hget, hdec⟩ := (ih (k + 1) a).mp hmem
          refine ⟨i + 1, row, by simpa using hget, ?_⟩
          rw [hshift i]
          exact hdec
      · rintro ⟨i, row, hget, hdec⟩
        cases i with
        | zero =>
          rw [List.getElem?_cons_zero] at hget
          injection hget with h
          subst h
          rw [Nat.add_zero, hd] at hdec
          injection hdec with h
          exact Or.inl h.symm
        | succ i =>
          rw [List.getElem?_cons_succ] at hget
          refine Or.inr ((ih (k + 1) a).mpr ⟨i, row, hget, ?_⟩)
          rw [← hshift i]
          exact hdec
    | none =>
      simp only [selectRows, hd]
      rw [ih (k + 1) a]
      constructor
      · rintro ⟨i, row, hget, hdec⟩
        refine ⟨i + 1, row, by simpa using hget, ?_⟩
        rw [hshift i]
        exact hdec
      · rintro ⟨i, row, hget, hdec⟩
        cases i with
        | zero =>
          rw [List.getElem?_cons_zero] at hget
          injection hget with h
          subst h
          rw [Nat.add_zero, hd] at hdec
          cases hdec
        | succ i =>
          rw [List.getElem?_cons_succ] at hget
          refine ⟨i, row, hget, ?_⟩
          rw [← hshift i]
          exact hdec

/-- Claim C1, as stated, is false on the code: a row whose timestamp lies
after the current run time is returned by `get_unsent_applicants`
although it is not inside the window that ends at the current run time
(`eligibleSpec`, the claim's eligibility predicate). -/
theorem get_unsent_applicants_window_cex :
    ¬ ((mkApplicant cexHeaders 2 cexFutureRow ∈
          get_unsent_applicants cexSheet cexNow) ↔
        eligibleSpec cexHeaders cexNow cexFutureRow = true) := by
  decide

/-- Claim C1 (amended): a data row of the applicant sheet is included in
the candidate list iff its sent-marker cell is empty, its timestamp
parses against the accepted formats to a point not earlier than
today-at-midnight minus `SEARCH_DAYS` (no upper bound — future timestamps
are also accepted), and its email cell is non-empty; ineligible rows are
merely excluded. -/
theorem get_unsent_applicants_mem_iff (allValues : List (List String))
    (now : PyDateTime) (i : Nat) (row : List String)
    (hrow : (allValues.drop 1)[i]? = some row)
    (hemail : listIndex (allValues.headD []) "メールアドレス" ≠ none) :
    mkApplicant (allValues.headD []) (2 + i) row ∈
        get_unsent_applicants allValues now ↔
      eligibleRow (allValues.headD []) (cutoffSec now) row = true := by
  have hi : i < (allValues.drop 1).length := by
    by_contra hcon
    rw [List.getElem?_eq_none (by omega)] at hrow
    cases hrow
  have hlen : ¬ allValues.length < 2 := by
    rw [List.length_drop] at hi
    omega
  unfold get_unsent_applicants
  rw [if_neg hlen, if_neg hemail,
    mem_selectRows (allValues.headD []) (cutoffSec now) (allValues.drop 1) 2]
  constructor
  · rintro ⟨j, row', hget, hdec⟩
    rw [rowDecision_eq] at hdec
    by_cases he : eligibleRow (allValues.headD []) (cutoffSec now) row' = true
    · rw [if_pos he] at hdec
      injection hdec with h
      have hji : j = i := by
        have := congrArg Applicant.row_index h
        simp only [mkApplicant] at this
        omega
      subst hji
      rw [hrow] at hget
      injection hget with h2
      rw [h2]
      exact he
    · rw [if_neg he] at hdec
      cases hdec
  · intro he
    exact ⟨i, row, hrow, by rw [rowDecision_eq, if_pos he]⟩

/-- Witness for C1 (amended): the concrete sheet's single data row is
eligible under the code's predicate and is indeed returned. -/
theorem get_unsent_applicants_mem_iff_witness :
    (mkApplicant cexHeaders 2 cexFutureRow ∈
        get_unsent_applicants cexSheet cexNow ↔
      eligibleRow cexHeaders (cutoffSec cexNow) cexFutureRow = true)
    ∧ eligibleRow cexHeaders (cutoffSec cexNow) cexFutureRow = true := by
  refine ⟨?_, by decide⟩
  exact get_unsent_applicants_mem_iff cexSheet cexNow 0 cexFutureRow
    (by decide) (by decide)

end AutoReply
